import Mathlib

/-!
Shallow embedding of `function_app.py` from the topdesk-fourkey-metrics
repository: a TopDesk REST client (`TopDeskClient`) and a FastAPI gateway
exposing six routes behind HTTP Basic authentication.

Python values are modelled as follows: `str` is `String`, optional
parameters are `Option _`, JSON documents are the inductive `Json` below,
exceptions are `Except`, and the process environment is a partial map
`String → Option String`.
-/

/-- JSON values, as decoded by `resp.json()`. -/
inductive Json where
  | null
  | bool (b : Bool)
  | num (n : Int)
  | str (s : String)
  | arr (xs : List Json)
  | obj (kvs : List (String × Json))

/-- Errors raised inside a client method: `requests` transport failures,
`HTTPError` from `raise_for_status`, and `AttributeError` from calling
`.get` on a non-dict JSON body. -/
inductive ClientError where
  | transportError
  | httpError (status : Nat)
  | attributeError

/-- The outcome of the one outbound GET a client method performs: either a
transport-level failure or an HTTP response with a status code and a
decoded JSON body. -/
inductive Upstream where
  | transportError
  | response (status : Nat) (body : Json)

/-- An outbound HTTP request: URL path (relative to the base URL) and the
query string as an ordered list of key/value pairs, as built by `requests`
from the `params` dict (a list-valued entry becomes repeated pairs). -/
structure HttpRequest where
  path : String
  query : List (String × String)
deriving DecidableEq

/-- `resp.raise_for_status()`: `requests` raises `HTTPError` exactly for
status codes in [400, 600). -/
def raise_for_status (status : Nat) : Except ClientError Unit :=
  if 400 ≤ status ∧ status < 600 then .error (.httpError status) else .ok ()

/-- `resp.json().get(key, default)`: Python `dict.get` with a default;
raises `AttributeError` when the decoded body is not a dict. -/
def jsonDictGet (j : Json) (key : String) (dflt : Json) : Except ClientError Json :=
  match j with
  | .obj kvs => .ok ((kvs.lookup key).getD dflt)
  | _ => .error .attributeError

/-- `params[k] = v` guarded by `if v:` for an optional string: Python
truthiness omits both `None` and the empty string. -/
def strParam (k : String) : Option String → List (String × String)
  | none => []
  | some s => if s = "" then [] else [(k, s)]

/-- `params[k] = v` guarded by `if v:` for an optional list of strings:
Python truthiness omits both `None` and the empty list; `requests` renders
a list value as one repeated query pair per element, in order. -/
def listParam (k : String) : Option (List String) → List (String × String)
  | none => []
  | some l => if l = [] then [] else l.map (fun f => (k, f))

/-- `params[k] = v` guarded by `if v is not None:` for an optional int;
`requests` renders the int with `str`. -/
def intParam (k : String) : Option Int → List (String × String)
  | none => []
  | some n => [(k, toString n)]

namespace TopDeskClient

/-- Query params of `TopDeskClient.list_incidents`: the code adds
`pageStart` / `pageSize` (each when not `None`) under an outer
`if pageStart is not None or pageSize is not None:` guard. -/
def list_incidents_params (pageStart pageSize : Option Int) : List (String × String) :=
  if pageStart ≠ none ∨ pageSize ≠ none then
    intParam "pageStart" pageStart ++ intParam "pageSize" pageSize
  else []

/-- The outbound GET built by `TopDeskClient.list_incidents`. -/
def list_incidents_request (pageStart pageSize : Option Int) : HttpRequest :=
  { path := "/incidents", query := list_incidents_params pageStart pageSize }

/-- Response handling of `TopDeskClient.list_incidents`:
`resp.raise_for_status()` then `return resp.json()`. -/
def list_incidents_result (u : Upstream) : Except ClientError Json :=
  match u with
  | .transportError => .error .transportError
  | .response st body => (raise_for_status st).bind fun _ => .ok body

/-- The outbound GET built by `TopDeskClient.get_incident_by_id`. -/
def get_incident_by_id_request (incident_id : String) : HttpRequest :=
  { path := "/incidents/id/" ++ incident_id, query := [] }

/-- Response handling of `TopDeskClient.get_incident_by_id`:
`resp.raise_for_status()` then `return resp.json()`. -/
def get_incident_by_id_result (u : Upstream) : Except ClientError Json :=
  match u with
  | .transportError => .error .transportError
  | .response st body => (raise_for_status st).bind fun _ => .ok body

/-- Query params of `TopDeskClient.get_transaction_assets`: `templateId`,
repeated `field`, `$filter` each guarded by truthiness, then
`pageStart` / `pageSize` guarded by `is not None` (inside the same outer
guard as in `list_incidents`); insertion order of the `params` dict. -/
def get_transaction_assets_params (template_id : Option String)
    (fields : Option (List String)) (filter : Option String)
    (pageStart pageSize : Option Int) : List (String × String) :=
  strParam "templateId" template_id ++
  listParam "field" fields ++
  strParam "$filter" filter ++
  (if pageStart ≠ none ∨ pageSize ≠ none then
     intParam "pageStart" pageStart ++ intParam "pageSize" pageSize
   else [])

/-- The outbound GET built by `TopDeskClient.get_transaction_assets`. -/
def get_transaction_assets_request (template_id : Option String)
    (fields : Option (List String)) (filter : Option String)
    (pageStart pageSize : Option Int) : HttpRequest :=
  { path := "/assetmgmt/assets",
    query := get_transaction_assets_params template_id fields filter pageStart pageSize }

/-- Response handling of `TopDeskClient.get_transaction_assets`:
`resp.raise_for_status()` then `return resp.json().get('dataSet', [])`. -/
def get_transaction_assets_result (u : Upstream) : Except ClientError Json :=
  match u with
  | .transportError => .error .transportError
  | .response st body =>
    (raise_for_status st).bind fun _ => jsonDictGet body "dataSet" (Json.arr [])

/-- The outbound GET built by `TopDeskClient.get_asset_by_id`. -/
def get_asset_by_id_request (asset_id : String) : HttpRequest :=
  { path := "/assetmgmt/assets/id/" ++ asset_id, query := [] }

/-- Response handling of `TopDeskClient.get_asset_by_id`. -/
def get_asset_by_id_result (u : Upstream) : Except ClientError Json :=
  match u with
  | .transportError => .error .transportError
  | .response st body => (raise_for_status st).bind fun _ => .ok body

/-- Query params of `TopDeskClient.list_changes`: `fields` guarded by
truthiness. -/
def list_changes_params (fields : Option String) : List (String × String) :=
  strParam "fields" fields

/-- The outbound GET built by `TopDeskClient.list_changes`. -/
def list_changes_request (fields : Option String) : HttpRequest :=
  { path := "/operatorChanges", query := list_changes_params fields }

/-- Response handling of `TopDeskClient.list_changes`:
`resp.raise_for_status()` then `return resp.json().get('results', [])`. -/
def list_changes_result (u : Upstream) : Except ClientError Json :=
  match u with
  | .transportError => .error .transportError
  | .response st body =>
    (raise_for_status st).bind fun _ => jsonDictGet body "results" (Json.arr [])

/-- The outbound GET built by `TopDeskClient.get_change_by_id`. -/
def get_change_by_id_request (change_id : String) (fields : Option String) : HttpRequest :=
  { path := "/operatorChanges/" ++ change_id, query := strParam "fields" fields }

/-- Response handling of `TopDeskClient.get_change_by_id`. -/
def get_change_by_id_result (u : Upstream) : Except ClientError Json :=
  match u with
  | .transportError => .error .transportError
  | .response st body => (raise_for_status st).bind fun _ => .ok body

end TopDeskClient

/-- The process environment: a partial map from variable name to value. -/
def Env : Type := String → Option String

/-- `os.getenv(name, default)`. -/
def getenv (env : Env) (name dflt : String) : String :=
  (env name).getD dflt

/-- The connection configuration held by a constructed `TopDeskClient`
(base URL normalized by `rstrip("/")`, Basic Auth credentials). -/
structure ClientConfig where
  base_url : String
  username : String
  password : String
deriving DecidableEq

/-- `get_topdesk_client`: reads `TOPDESK_USER` / `TOPDESK_API_KEY` with
fallback `"aaa"`, raises `RuntimeError` when either is falsy (the empty
string), otherwise constructs the client. -/
def get_topdesk_client (env : Env) : Except String ClientConfig :=
  let user := getenv env "TOPDESK_USER" "aaa"
  let password := getenv env "TOPDESK_API_KEY" "aaa"
  if user = "" ∨ password = "" then
    .error "TOPDESK_USER or TOPDESK_API_KEY not set in .env file."
  else
    .ok { base_url := "https://cartaoelo.topdesk.net/tas/api",
          username := user, password := password }

/-- The caller's HTTP Basic credentials, as decoded by `HTTPBasic`. -/
structure Credentials where
  username : String
  password : String
deriving DecidableEq

/-- An inbound HTTP response of the gateway. -/
structure Response where
  status : Nat
  headers : List (String × String)
  body : Json

/-- The `HTTPException` raised by `verify_basic_auth` on a credential
mismatch: status 401, `WWW-Authenticate: Basic` header. -/
def unauthorizedResponse : Response :=
  { status := 401,
    headers := [("WWW-Authenticate", "Basic")],
    body := Json.obj [("detail", Json.str "Incorrect username or password")] }

/-- The FastAPI response to a request failing parameter validation
(a missing required query parameter): status 422. -/
def validationErrorResponse : Response :=
  { status := 422,
    headers := [],
    body := Json.obj [("detail", Json.str "Field required")] }

/-- The framework's response when an exception escapes the handler
(e.g. `RuntimeError` from `get_topdesk_client`, raised outside the
`try` block): status 500. -/
def serverErrorResponse : Response :=
  { status := 500,
    headers := [],
    body := Json.obj [("detail", Json.str "Internal Server Error")] }

/-- A 200 response carrying a JSON body. -/
def ok200 (b : Json) : Response :=
  { status := 200, headers := [], body := b }

/-- `verify_basic_auth`: compares the supplied username and password
against the configured `API_USERNAME` / `API_PASSWORD`
(`secrets.compare_digest` is constant-time string equality); on any
mismatch raises the 401 `HTTPException`, otherwise returns the username. -/
def verify_basic_auth (apiUsername apiPassword : String)
    (credentials : Credentials) : Except Response String :=
  if credentials.username = apiUsername ∧ credentials.password = apiPassword then
    .ok credentials.username
  else
    .error unauthorizedResponse

/-- What one inbound request produced: the response sent to the caller and
the outbound request the client issued, `none` when no client call was
made. -/
structure GatewayOutcome where
  response : Response
  call : Option HttpRequest

/-- Route `GET /v1/incidents` (`list_incidents`): resolve the
`verify_basic_auth` dependency, construct the client, delegate to
`TopDeskClient.list_incidents`, and on any exception from the call return
`[]`. -/
def list_incidents_route (env : Env) (apiUsername apiPassword : String)
    (cred : Credentials) (pageStart pageSize : Option Int)
    (upstream : Upstream) : GatewayOutcome :=
  match verify_basic_auth apiUsername apiPassword cred with
  | .error r => { response := r, call := none }
  | .ok _ =>
    match get_topdesk_client env with
    | .error _ => { response := serverErrorResponse, call := none }
    | .ok _ =>
      match TopDeskClient.list_incidents_result upstream with
      | .ok j =>
        { response := ok200 j,
          call := some (TopDeskClient.list_incidents_request pageStart pageSize) }
      | .error _ =>
        { response := ok200 (Json.arr []),
          call := some (TopDeskClient.list_incidents_request pageStart pageSize) }

/-- Route `GET /v1/incidents/{incident_id}` (`get_incident`): on any
exception from the client call return `{}`. -/
def get_incident_route (env : Env) (apiUsername apiPassword : String)
    (cred : Credentials) (incident_id : String)
    (upstream : Upstream) : GatewayOutcome :=
  match verify_basic_auth apiUsername apiPassword cred with
  | .error r => { response := r, call := none }
  | .ok _ =>
    match get_topdesk_client env with
    | .error _ => { response := serverErrorResponse, call := none }
    | .ok _ =>
      match TopDeskClient.get_incident_by_id_result upstream with
      | .ok j =>
        { response := ok200 j,
          call := some (TopDeskClient.get_incident_by_id_request incident_id) }
      | .error _ =>
        { response := ok200 (Json.obj []),
          call := some (TopDeskClient.get_incident_by_id_request incident_id) }

/-- Python `str.isspace` characters, the set removed by `str.strip()`:
U+0009 to U+000D, U+001C to U+001F, the space, NEL (U+0085), NBSP (U+00A0),
Ogham space mark (U+1680), the U+2000 to U+200A spaces, line and paragraph
separators (U+2028, U+2029), narrow NBSP (U+202F), medium mathematical
space (U+205F) and ideographic space (U+3000). -/
def pyIsSpace (c : Char) : Bool :=
  (0x09 ≤ c.toNat ∧ c.toNat ≤ 0x0d) ∨ (0x1c ≤ c.toNat ∧ c.toNat ≤ 0x1f) ∨
  c.toNat = 0x20 ∨ c.toNat = 0x85 ∨ c.toNat = 0xa0 ∨ c.toNat = 0x1680 ∨
  (0x2000 ≤ c.toNat ∧ c.toNat ≤ 0x200a) ∨ c.toNat = 0x2028 ∨ c.toNat = 0x2029 ∨
  c.toNat = 0x202f ∨ c.toNat = 0x205f ∨ c.toNat = 0x3000

/-- Python `str.strip()`: remove leading and trailing whitespace. -/
def pyStrip (s : String) : String :=
  String.mk (((s.data.dropWhile pyIsSpace).reverse.dropWhile pyIsSpace).reverse)

/-- Helper for `pySplitComma`: accumulates the current chunk (reversed). -/
def pySplitCommaAux : List Char → List Char → List String
  | [], acc => [String.mk acc.reverse]
  | c :: cs, acc =>
    if c = ',' then String.mk acc.reverse :: pySplitCommaAux cs []
    else pySplitCommaAux cs (c :: acc)

/-- Python `str.split(',')`: split on every comma, keeping empty chunks
(`"".split(',')` is `[""]`). -/
def pySplitComma (s : String) : List String :=
  pySplitCommaAux s.data []

/-- The `fields` preprocessing of route `list_assets`: `if fields:` then
`fields = fields.strip()`, `if fields:` then `fields_lst =
fields.split(',')`; otherwise `fields_lst` stays `None`. -/
def list_assets_fields_lst (fields : Option String) : Option (List String) :=
  match fields with
  | none => none
  | some f =>
    if f = "" then none
    else
      let f := pyStrip f
      if f = "" then none else some (pySplitComma f)

/-- Route `GET /v1/assets` (`list_assets`): splits the `fields` query value
and delegates to `TopDeskClient.get_transaction_assets`; on any exception
from the call returns `[]`. -/
def list_assets_route (env : Env) (apiUsername apiPassword : String)
    (cred : Credentials) (template_id fields filter : Option String)
    (pageStart pageSize : Option Int) (upstream : Upstream) : GatewayOutcome :=
  match verify_basic_auth apiUsername apiPassword cred with
  | .error r => { response := r, call := none }
  | .ok _ =>
    match get_topdesk_client env with
    | .error _ => { response := serverErrorResponse, call := none }
    | .ok _ =>
      let fields_lst := list_assets_fields_lst fields
      match TopDeskClient.get_transaction_assets_result upstream with
      | .ok j =>
        { response := ok200 j,
          call := some (TopDeskClient.get_transaction_assets_request
            template_id fields_lst filter pageStart pageSize) }
      | .error _ =>
        { response := ok200 (Json.arr []),
          call := some (TopDeskClient.get_transaction_assets_request
            template_id fields_lst filter pageStart pageSize) }

/-- Route `GET /v1/assets/{asset_id}` (`get_asset`): on any exception from
the client call returns `{}`. -/
def get_asset_route (env : Env) (apiUsername apiPassword : String)
    (cred : Credentials) (asset_id : String)
    (upstream : Upstream) : GatewayOutcome :=
  match verify_basic_auth apiUsername apiPassword cred with
  | .error r => { response := r, call := none }
  | .ok _ =>
    match get_topdesk_client env with
    | .error _ => { response := serverErrorResponse, call := none }
    | .ok _ =>
      match TopDeskClient.get_asset_by_id_result upstream with
      | .ok j =>
        { response := ok200 j,
          call := some (TopDeskClient.get_asset_by_id_request asset_id) }
      | .error _ =>
        { response := ok200 (Json.obj []),
          call := some (TopDeskClient.get_asset_by_id_request asset_id) }

/-- Route `GET /v1/changes` (`list_changes`): `fields: Optional[str]` has
no default, so FastAPI treats it as a required query parameter — the
security dependency is resolved first, then a request omitting `fields`
fails validation (422) before the handler body runs; otherwise delegate to
`TopDeskClient.list_changes`, returning `[]` on any exception. -/
def list_changes_route (env : Env) (apiUsername apiPassword : String)
    (cred : Credentials) (fields : Option String)
    (upstream : Upstream) : GatewayOutcome :=
  match verify_basic_auth apiUsername apiPassword cred with
  | .error r => { response := r, call := none }
  | .ok _ =>
    match fields with
    | none => { response := validationErrorResponse, call := none }
    | some f =>
      match get_topdesk_client env with
      | .error _ => { response := serverErrorResponse, call := none }
      | .ok _ =>
        match TopDeskClient.list_changes_result upstream with
        | .ok j =>
          { response := ok200 j,
            call := some (TopDeskClient.list_changes_request (some f)) }
        | .error _ =>
          { response := ok200 (Json.arr []),
            call := some (TopDeskClient.list_changes_request (some f)) }

/-- Route `GET /v1/changes/{change_id}` (`get_change`): `fields` is
likewise declared without a default, hence required; returns `{}` on any
exception from the client call. -/
def get_change_route (env : Env) (apiUsername apiPassword : String)
    (cred : Credentials) (change_id : String) (fields : Option String)
    (upstream : Upstream) : GatewayOutcome :=
  match verify_basic_auth apiUsername apiPassword cred with
  | .error r => { response := r, call := none }
  | .ok _ =>
    match fields with
    | none => { response := validationErrorResponse, call := none }
    | some f =>
      match get_topdesk_client env with
      | .error _ => { response := serverErrorResponse, call := none }
      | .ok _ =>
        match TopDeskClient.get_change_by_id_result upstream with
        | .ok j =>
          { response := ok200 j,
            call := some (TopDeskClient.get_change_by_id_request change_id (some f)) }
        | .error _ =>
          { response := ok200 (Json.obj []),
            call := some (TopDeskClient.get_change_by_id_request change_id (some f)) }

/-- The keys of a request's query string. -/
def queryKeys (r : HttpRequest) : List String :=
  r.query.map Prod.fst

/-- The values of the repeated `field` query parameter, in order. -/
def fieldsOf (q : List (String × String)) : List String :=
  q.filterMap (fun kv => if kv.1 = "field" then some kv.2 else none)

/-- The values of the repeated `field` parameter of a request. -/
def fieldValues (r : HttpRequest) : List String :=
  fieldsOf r.query

theorem mem_strParam_iff {k : String} {v : Option String} {p : String × String} :
    p ∈ strParam k v ↔ p.1 = k ∧ v = some p.2 ∧ p.2 ≠ "" := by
  rcases v with _ | s
  · simp [strParam]
  · simp only [strParam]
    split
    · rename_i hs
      subst hs
      simp only [List.not_mem_nil, false_iff]
      rintro ⟨-, h, hne⟩
      exact hne (Option.some_injective _ h).symm
    · rename_i hs
      constructor
      · rintro h
        rcases List.mem_singleton.mp h with rfl
        exact ⟨rfl, rfl, hs⟩
      · rintro ⟨h1, h2, -⟩
        rcases p with ⟨a, b⟩
        obtain rfl : s = b := Option.some_injective _ h2
        simp_all

theorem mem_intParam_iff {k : String} {v : Option Int} {p : String × String} :
    p ∈ intParam k v ↔ p.1 = k ∧ ∃ n, v = some n ∧ p.2 = toString n := by
  rcases v with _ | n
  · simp [intParam]
  · simp only [intParam, List.mem_singleton]
    constructor
    · rintro rfl
      exact ⟨rfl, n, rfl, rfl⟩
    · rintro ⟨h1, m, hm, h2⟩
      obtain rfl : n = m := Option.some_injective _ hm
      rcases p with ⟨a, b⟩
      simp_all

theorem mem_listParam_iff {k : String} {v : Option (List String)} {p : String × String} :
    p ∈ listParam k v ↔ p.1 = k ∧ ∃ l, v = some l ∧ p.2 ∈ l := by
  rcases v with _ | l
  · simp [listParam]
  · simp only [listParam]
    split
    · rename_i hl
      subst hl
      simp only [List.not_mem_nil, false_iff]
      rintro ⟨-, l', hl', hmem⟩
      obtain rfl : ([] : List String) = l' := Option.some_injective _ hl'
      exact List.not_mem_nil _ hmem
    · constructor
      · rintro h
        rcases List.mem_map.mp h with ⟨f, hf, rfl⟩
        exact ⟨rfl, l, rfl, hf⟩
      · rintro ⟨h1, l', hl', hmem⟩
        obtain rfl : l = l' := Option.some_injective _ hl'
        rcases p with ⟨a, b⟩
        obtain rfl : a = k := h1
        exact List.mem_map.mpr ⟨b, hmem, rfl⟩

theorem assets_query_eq (template_id : Option String) (fields : Option (List String))
    (filter : Option String) (pageStart pageSize : Option Int) :
    (TopDeskClient.get_transaction_assets_request template_id fields filter
        pageStart pageSize).query =
      strParam "templateId" template_id ++ listParam "field" fields ++
      strParam "$filter" filter ++ intParam "pageStart" pageStart ++
      intParam "pageSize" pageSize := by
  rcases pageStart with _ | a <;> rcases pageSize with _ | b <;>
    simp [TopDeskClient.get_transaction_assets_request,
      TopDeskClient.get_transaction_assets_params, intParam]

theorem fieldsOf_append (a b : List (String × String)) :
    fieldsOf (a ++ b) = fieldsOf a ++ fieldsOf b :=
  List.filterMap_append a b _

theorem fieldsOf_strParam {k : String} (h : k ≠ "field") (v : Option String) :
    fieldsOf (strParam k v) = [] := by
  rcases v with _ | s
  · simp [strParam, fieldsOf]
  · simp only [strParam]
    split
    · simp [fieldsOf]
    · simp [fieldsOf, h]

theorem fieldsOf_intParam {k : String} (h : k ≠ "field") (v : Option Int) :
    fieldsOf (intParam k v) = [] := by
  rcases v with _ | n
  · simp [intParam, fieldsOf]
  · simp [intParam, fieldsOf, h]

theorem fieldsOf_listParam_field (v : Option (List String)) :
    fieldsOf (listParam "field" v) = v.getD [] := by
  rcases v with _ | l
  · simp [listParam, fieldsOf]
  · simp only [listParam]
    split
    · rename_i hl
      subst hl
      simp [fieldsOf]
    · have hfun : ((fun kv : String × String => if kv.1 = "field" then some kv.2 else none) ∘
          fun f => ("field", f)) = some := by
        funext f
        simp
      rw [fieldsOf, List.filterMap_map, hfun]
      simp

theorem fieldValues_assets (template_id : Option String) (fields : Option (List String))
    (filter : Option String) (pageStart pageSize : Option Int) :
    fieldValues (TopDeskClient.get_transaction_assets_request template_id fields filter
        pageStart pageSize) = fields.getD [] := by
  rw [fieldValues, assets_query_eq, fieldsOf_append, fieldsOf_append, fieldsOf_append,
    fieldsOf_append, fieldsOf_strParam (by decide), fieldsOf_strParam (by decide),
    fieldsOf_intParam (by decide), fieldsOf_intParam (by decide), fieldsOf_listParam_field]
  simp

theorem verify_basic_auth_matching (apiU apiP : String) :
    verify_basic_auth apiU apiP ⟨apiU, apiP⟩ = .ok apiU := by
  simp [verify_basic_auth]

/-- C1: authentication succeeds iff the supplied Basic Auth username and
password both equal the configured expected values; any mismatch on either
field yields a 401 response with a `WWW-Authenticate: Basic` header, and no
route makes a client call for that request. -/
theorem auth_iff_and_mismatch_is_401_no_call (apiU apiP u p : String) :
    (verify_basic_auth apiU apiP ⟨u, p⟩ = .ok u ↔ (u = apiU ∧ p = apiP)) ∧
    (¬(u = apiU ∧ p = apiP) →
      verify_basic_auth apiU apiP ⟨u, p⟩ = .error unauthorizedResponse ∧
      unauthorizedResponse.status = 401 ∧
      ("WWW-Authenticate", "Basic") ∈ unauthorizedResponse.headers ∧
      (∀ env ps sz upstream,
        list_incidents_route env apiU apiP ⟨u, p⟩ ps sz upstream =
          { response := unauthorizedResponse, call := none }) ∧
      (∀ env iid upstream,
        get_incident_route env apiU apiP ⟨u, p⟩ iid upstream =
          { response := unauthorizedResponse, call := none }) ∧
      (∀ env tid fs fil ps sz upstream,
        list_assets_route env apiU apiP ⟨u, p⟩ tid fs fil ps sz upstream =
          { response := unauthorizedResponse, call := none }) ∧
      (∀ env aid upstream,
        get_asset_route env apiU apiP ⟨u, p⟩ aid upstream =
          { response := unauthorizedResponse, call := none }) ∧
      (∀ env fs upstream,
        list_changes_route env apiU apiP ⟨u, p⟩ fs upstream =
          { response := unauthorizedResponse, call := none }) ∧
      (∀ env cid fs upstream,
        get_change_route env apiU apiP ⟨u, p⟩ cid fs upstream =
          { response := unauthorizedResponse, call := none })) := by
  constructor
  · by_cases h : u = apiU ∧ p = apiP
    · simp [verify_basic_auth, h]
    · have hv : verify_basic_auth apiU apiP ⟨u, p⟩ = .error unauthorizedResponse := by
        simp only [verify_basic_auth]
        rw [if_neg h]
      rw [hv]
      exact ⟨fun hc => Except.noConfusion hc, fun hc => absurd hc h⟩
  · intro h
    have hv : verify_basic_auth apiU apiP ⟨u, p⟩ = .error unauthorizedResponse := by
      simp only [verify_basic_auth]
      rw [if_neg h]
    refine ⟨hv, rfl, by simp [unauthorizedResponse], ?_, ?_, ?_, ?_, ?_, ?_⟩ <;>
      intros <;>
      simp [list_incidents_route, get_incident_route, list_assets_route, get_asset_route,
        list_changes_route, get_change_route, hv]

theorem auth_iff_and_mismatch_is_401_no_call_witness :
    ¬("apiuser" = "apiuser" ∧ "wrong" = "apipass") ∧
    verify_basic_auth "apiuser" "apipass" ⟨"apiuser", "wrong"⟩ = .error unauthorizedResponse ∧
    list_changes_route (fun _ => none) "apiuser" "apipass" ⟨"apiuser", "wrong"⟩
        (some "all") .transportError =
      { response := unauthorizedResponse, call := none } := by
  have h := (auth_iff_and_mismatch_is_401_no_call "apiuser" "apipass" "apiuser" "wrong").2
    (by decide)
  exact ⟨by decide, h.1, h.2.2.2.2.2.2.2.1 (fun _ => none) (some "all") .transportError⟩

/-- C6: with neither page-start nor page-size provided, the incident
listing request targets `/incidents` with a query string containing
neither the `pageStart` nor the `pageSize` key. -/
theorem list_incidents_no_pagination_keys :
    (TopDeskClient.list_incidents_request none none).path = "/incidents" ∧
    "pageStart" ∉ queryKeys (TopDeskClient.list_incidents_request none none) ∧
    "pageSize" ∉ queryKeys (TopDeskClient.list_incidents_request none none) := by
  refine ⟨rfl, ?_, ?_⟩ <;>
    simp [queryKeys, TopDeskClient.list_incidents_request, TopDeskClient.list_incidents_params]

/-- C9: `get_transaction_assets` gates its string and list parameters on
truthiness: an empty-string `template_id` or `filter` and an empty
`fields` list are omitted from the query, while `pageStart = 0` and
`pageSize = 0` are included (rendered as `"0"`). -/
theorem get_transaction_assets_truthiness_gating :
    (∀ fs fil ps sz, "templateId" ∉
      queryKeys (TopDeskClient.get_transaction_assets_request (some "") fs fil ps sz)) ∧
    (∀ tid fil ps sz, "field" ∉
      queryKeys (TopDeskClient.get_transaction_assets_request tid (some []) fil ps sz)) ∧
    (∀ tid fs ps sz, "$filter" ∉
      queryKeys (TopDeskClient.get_transaction_assets_request tid fs (some "") ps sz)) ∧
    (∀ tid fs fil sz, ("pageStart", "0") ∈
      (TopDeskClient.get_transaction_assets_request tid fs fil (some 0) sz).query) ∧
    (∀ tid fs fil ps, ("pageSize", "0") ∈
      (TopDeskClient.get_transaction_assets_request tid fs fil ps (some 0)).query) := by
  refine ⟨?_, ?_, ?_, ?_, ?_⟩
  · intro fs fil ps sz h
    rw [queryKeys, assets_query_eq] at h
    simp only [List.map_append, List.mem_append, List.mem_map] at h
    rcases h with (((⟨q, hq, hk⟩ | ⟨q, hq, hk⟩) | ⟨q, hq, hk⟩) | ⟨q, hq, hk⟩) | ⟨q, hq, hk⟩
    · rcases mem_strParam_iff.mp hq with ⟨-, h2, h3⟩
      exact h3 (Option.some_injective _ h2).symm
    · exact absurd ((mem_listParam_iff.mp hq).1.symm.trans hk) (by decide)
    · exact absurd ((mem_strParam_iff.mp hq).1.symm.trans hk) (by decide)
    · exact absurd ((mem_intParam_iff.mp hq).1.symm.trans hk) (by decide)
    · exact absurd ((mem_intParam_iff.mp hq).1.symm.trans hk) (by decide)
  · intro tid fil ps sz h
    rw [queryKeys, assets_query_eq] at h
    simp only [List.map_append, List.mem_append, List.mem_map] at h
    rcases h with (((⟨q, hq, hk⟩ | ⟨q, hq, hk⟩) | ⟨q, hq, hk⟩) | ⟨q, hq, hk⟩) | ⟨q, hq, hk⟩
    · exact absurd ((mem_strParam_iff.mp hq).1.symm.trans hk) (by decide)
    · rcases mem_listParam_iff.mp hq with ⟨-, l, hl, hmem⟩
      obtain rfl : ([] : List String) = l := Option.some_injective _ hl
      exact List.not_mem_nil _ hmem
    · exact absurd ((mem_strParam_iff.mp hq).1.symm.trans hk) (by decide)
    · exact absurd ((mem_intParam_iff.mp hq).1.symm.trans hk) (by decide)
    · exact absurd ((mem_intParam_iff.mp hq).1.symm.trans hk) (by decide)
  · intro tid fs ps sz h
    rw [queryKeys, assets_query_eq] at h
    simp only [List.map_append, List.mem_append, List.mem_map] at h
    rcases h with (((⟨q, hq, hk⟩ | ⟨q, hq, hk⟩) | ⟨q, hq, hk⟩) | ⟨q, hq, hk⟩) | ⟨q, hq, hk⟩
    · exact absurd ((mem_strParam_iff.mp hq).1.symm.trans hk) (by decide)
    · exact absurd ((mem_listParam_iff.mp hq).1.symm.trans hk) (by decide)
    · rcases mem_strParam_iff.mp hq with ⟨-, h2, h3⟩
      exact h3 (Option.some_injective _ h2).symm
    · exact absurd ((mem_intParam_iff.mp hq).1.symm.trans hk) (by decide)
    · exact absurd ((mem_intParam_iff.mp hq).1.symm.trans hk) (by decide)
  · intro tid fs fil sz
    rw [assets_query_eq]
    refine List.mem_append.mpr (Or.inl (List.mem_append.mpr (Or.inr ?_)))
    exact mem_intParam_iff.mpr ⟨rfl, 0, rfl, by decide⟩
  · intro tid fs fil ps
    rw [assets_query_eq]
    refine List.mem_append.mpr (Or.inr ?_)
    exact mem_intParam_iff.mpr ⟨rfl, 0, rfl, by decide⟩

theorem get_transaction_assets_truthiness_gating_witness :
    "templateId" ∉
      queryKeys (TopDeskClient.get_transaction_assets_request (some "") none none none none) ∧
    ("pageStart", "0") ∈
      (TopDeskClient.get_transaction_assets_request none none none (some 0) none).query :=
  ⟨get_transaction_assets_truthiness_gating.1 none none none none,
   get_transaction_assets_truthiness_gating.2.2.2.1 none none none none⟩

/-- C5: every asset-listing call targets `/assetmgmt/assets`; the
`templateId`, `$filter`, `pageStart` and `pageSize` query parameters carry
the given values and appear only if the corresponding input was provided;
the repeated `field` parameter carries exactly the given field list in the
order supplied. -/
theorem get_transaction_assets_request_shape (tid : Option String)
    (fs : Option (List String)) (fil : Option String) (ps sz : Option Int) :
    (TopDeskClient.get_transaction_assets_request tid fs fil ps sz).path =
        "/assetmgmt/assets" ∧
    (∀ v, ("templateId", v) ∈
        (TopDeskClient.get_transaction_assets_request tid fs fil ps sz).query →
      tid = some v) ∧
    (∀ t, tid = some t → t ≠ "" →
      ("templateId", t) ∈
        (TopDeskClient.get_transaction_assets_request tid fs fil ps sz).query) ∧
    (∀ l, fs = some l →
      fieldValues (TopDeskClient.get_transaction_assets_request tid fs fil ps sz) = l) ∧
    (fs = none →
      fieldValues (TopDeskClient.get_transaction_assets_request tid fs fil ps sz) = []) ∧
    (∀ v, ("$filter", v) ∈
        (TopDeskClient.get_transaction_assets_request tid fs fil ps sz).query →
      fil = some v) ∧
    (∀ f, fil = some f → f ≠ "" →
      ("$filter", f) ∈
        (TopDeskClient.get_transaction_assets_request tid fs fil ps sz).query) ∧
    (∀ v, ("pageStart", v) ∈
        (TopDeskClient.get_transaction_assets_request tid fs fil ps sz).query →
      ∃ n, ps = some n ∧ v = toString n) ∧
    (∀ n, ps = some n →
      ("pageStart", toString n) ∈
        (TopDeskClient.get_transaction_assets_request tid fs fil ps sz).query) ∧
    (∀ v, ("pageSize", v) ∈
        (TopDeskClient.get_transaction_assets_request tid fs fil ps sz).query →
      ∃ n, sz = some n ∧ v = toString n) ∧
    (∀ n, sz = some n →
      ("pageSize", toString n) ∈
        (TopDeskClient.get_transaction_assets_request tid fs fil ps sz).query) := by
  refine ⟨rfl, ?_, ?_, ?_, ?_, ?_, ?_, ?_, ?_, ?_, ?_⟩
  · intro v hv
    rw [assets_query_eq] at hv
    simp only [List.mem_append] at hv
    rcases hv with (((h | h) | h) | h) | h
    · exact (mem_strParam_iff.mp h).2.1
    · exact absurd (mem_listParam_iff.mp h).1 (by simp)
    · exact absurd (mem_strParam_iff.mp h).1 (by simp)
    · exact absurd (mem_intParam_iff.mp h).1 (by simp)
    · exact absurd (mem_intParam_iff.mp h).1 (by simp)
  · intro t ht hne
    subst ht
    rw [assets_query_eq]
    simp only [List.mem_append]
    exact Or.inl (Or.inl (Or.inl (Or.inl (mem_strParam_iff.mpr ⟨rfl, rfl, hne⟩))))
  · intro l hl
    rw [fieldValues_assets, hl]
    rfl
  · intro hl
    rw [fieldValues_assets, hl]
    rfl
  · intro v hv
    rw [assets_query_eq] at hv
    simp only [List.mem_append] at hv
    rcases hv with (((h | h) | h) | h) | h
    · exact absurd (mem_strParam_iff.mp h).1 (by simp)
    · exact absurd (mem_listParam_iff.mp h).1 (by simp)
    · exact (mem_strParam_iff.mp h).2.1
    · exact absurd (mem_intParam_iff.mp h).1 (by simp)
    · exact absurd (mem_intParam_iff.mp h).1 (by simp)
  · intro f hf hne
    subst hf
    rw [assets_query_eq]
    simp only [List.mem_append]
    exact Or.inl (Or.inl (Or.inr (mem_strParam_iff.mpr ⟨rfl, rfl, hne⟩)))
  · intro v hv
    rw [assets_query_eq] at hv
    simp only [List.mem_append] at hv
    rcases hv with (((h | h) | h) | h) | h
    · exact absurd (mem_strParam_iff.mp h).1 (by simp)
    · exact absurd (mem_listParam_iff.mp h).1 (by simp)
    · exact absurd (mem_strParam_iff.mp h).1 (by simp)
    · rcases mem_intParam_iff.mp h with ⟨-, n, hn, hv2⟩
      exact ⟨n, hn, hv2⟩
    · exact absurd (mem_intParam_iff.mp h).1 (by simp)
  · intro n hn
    subst hn
    rw [assets_query_eq]
    simp only [List.mem_append]
    exact Or.inl (Or.inr (mem_intParam_iff.mpr ⟨rfl, n, rfl, rfl⟩))
  · intro v hv
    rw [assets_query_eq] at hv
    simp only [List.mem_append] at hv
    rcases hv with (((h | h) | h) | h) | h
    · exact absurd (mem_strParam_iff.mp h).1 (by simp)
    · exact absurd (mem_listParam_iff.mp h).1 (by simp)
    · exact absurd (mem_strParam_iff.mp h).1 (by simp)
    · exact absurd (mem_intParam_iff.mp h).1 (by simp)
    · rcases mem_intParam_iff.mp h with ⟨-, n, hn, hv2⟩
      exact ⟨n, hn, hv2⟩
  · intro n hn
    subst hn
    rw [assets_query_eq]
    simp only [List.mem_append]
    exact Or.inr (mem_intParam_iff.mpr ⟨rfl, n, rfl, rfl⟩)

theorem get_transaction_assets_request_shape_witness :
    ("templateId", "T1") ∈ (TopDeskClient.get_transaction_assets_request (some "T1")
      (some ["a", "b"]) none (some 1) none).query ∧
    fieldValues (TopDeskClient.get_transaction_assets_request (some "T1")
      (some ["a", "b"]) none (some 1) none) = ["a", "b"] := by
  have h := get_transaction_assets_request_shape (some "T1") (some ["a", "b"]) none
    (some 1) none
  exact ⟨h.2.2.1 "T1" rfl (by decide), h.2.2.2.1 ["a", "b"] rfl⟩

/-- C10: on route `list_assets`, a `fields` query value that is empty or
whitespace-only yields no field list (and hence no `field` query parameter
outbound); any other value yields exactly the comma-split of the
whitespace-stripped string. -/
theorem list_assets_fields_preprocessing (s : String) (tid fil : Option String)
    (ps sz : Option Int) :
    (pyStrip s = "" →
      list_assets_fields_lst (some s) = none ∧
      "field" ∉ queryKeys (TopDeskClient.get_transaction_assets_request tid
        (list_assets_fields_lst (some s)) fil ps sz)) ∧
    (pyStrip s ≠ "" →
      list_assets_fields_lst (some s) = some (pySplitComma (pyStrip s))) := by
  constructor
  · intro h
    have hnone : list_assets_fields_lst (some s) = none := by
      by_cases hs : s = ""
      · simp [list_assets_fields_lst, hs]
      · simp [list_assets_fields_lst, hs, h]
    refine ⟨hnone, ?_⟩
    rw [hnone]
    intro hmem
    rw [queryKeys, assets_query_eq] at hmem
    simp only [List.map_append, List.mem_append, List.mem_map] at hmem
    rcases hmem with (((⟨q, hq, hk⟩ | ⟨q, hq, hk⟩) | ⟨q, hq, hk⟩) | ⟨q, hq, hk⟩) | ⟨q, hq, hk⟩
    · exact absurd ((mem_strParam_iff.mp hq).1.symm.trans hk) (by decide)
    · simp [listParam] at hq
    · exact absurd ((mem_strParam_iff.mp hq).1.symm.trans hk) (by decide)
    · exact absurd ((mem_intParam_iff.mp hq).1.symm.trans hk) (by decide)
    · exact absurd ((mem_intParam_iff.mp hq).1.symm.trans hk) (by decide)
  · intro h
    have hs : s ≠ "" := by
      intro hs
      subst hs
      exact h rfl
    simp [list_assets_fields_lst, hs, h]

theorem list_assets_fields_preprocessing_witness :
    list_assets_fields_lst (some "   ") = none ∧
    "field" ∉ queryKeys (TopDeskClient.get_transaction_assets_request none
      (list_assets_fields_lst (some "   ")) none none none) ∧
    list_assets_fields_lst (some "\u00A0") = none ∧
    list_assets_fields_lst (some " a, b,") = some ["a", " b", ""] := by
  have h1 := (list_assets_fields_preprocessing "   " none none none none).1 (by decide)
  have h2 := (list_assets_fields_preprocessing " a, b," none none none none).2 (by decide)
  have h3 := (list_assets_fields_preprocessing "\u00A0" none none none none).1 (by decide)
  exact ⟨h1.1, h1.2, h3.1, h2.trans (by decide)⟩

/-- C2: on every authenticated request, any error raised by the client call
is caught and masked: the three list routes return HTTP 200 with body `[]`
and the three single-resource routes return HTTP 200 with body `{}`. -/
theorem gateway_masks_client_errors (env : Env) (cfg : ClientConfig)
    (apiU apiP : String) (ps sz : Option Int) (tid flds fil : Option String)
    (iid aid cid f g : String) (u : Upstream) (e : ClientError)
    (hcfg : get_topdesk_client env = .ok cfg) :
    (TopDeskClient.list_incidents_result u = .error e →
      (list_incidents_route env apiU apiP ⟨apiU, apiP⟩ ps sz u).response =
        ok200 (Json.arr [])) ∧
    (TopDeskClient.get_incident_by_id_result u = .error e →
      (get_incident_route env apiU apiP ⟨apiU, apiP⟩ iid u).response =
        ok200 (Json.obj [])) ∧
    (TopDeskClient.get_transaction_assets_result u = .error e →
      (list_assets_route env apiU apiP ⟨apiU, apiP⟩ tid flds fil ps sz u).response =
        ok200 (Json.arr [])) ∧
    (TopDeskClient.get_asset_by_id_result u = .error e →
      (get_asset_route env apiU apiP ⟨apiU, apiP⟩ aid u).response =
        ok200 (Json.obj [])) ∧
    (TopDeskClient.list_changes_result u = .error e →
      (list_changes_route env apiU apiP ⟨apiU, apiP⟩ (some f) u).response =
        ok200 (Json.arr [])) ∧
    (TopDeskClient.get_change_by_id_result u = .error e →
      (get_change_route env apiU apiP ⟨apiU, apiP⟩ cid (some g) u).response =
        ok200 (Json.obj [])) := by
  have hv := verify_basic_auth_matching apiU apiP
  refine ⟨?_, ?_, ?_, ?_, ?_, ?_⟩ <;> intro h <;>
    simp [list_incidents_route, get_incident_route, list_assets_route, get_asset_route,
      list_changes_route, get_change_route, hv, hcfg, h]

theorem gateway_masks_client_errors_witness :
    (list_incidents_route (fun _ => none) "u" "p" ⟨"u", "p"⟩ none none
      .transportError).response = ok200 (Json.arr []) ∧
    (get_change_route (fun _ => none) "u" "p" ⟨"u", "p"⟩ "c1" (some "all")
      .transportError).response = ok200 (Json.obj []) := by
  have h := gateway_masks_client_errors (fun _ => none)
    ⟨"https://cartaoelo.topdesk.net/tas/api", "aaa", "aaa"⟩ "u" "p" none none none none none
    "i1" "a1" "c1" "f" "all" .transportError .transportError rfl
  exact ⟨h.1 rfl, h.2.2.2.2.2 rfl⟩

/-- C3: an authenticated `GET /v1/changes` request whose upstream call
returns HTTP 500 yields HTTP 200 with body `[]`. -/
theorem list_changes_masks_upstream_500 (env : Env) (cfg : ClientConfig)
    (apiU apiP f : String) (body : Json)
    (hcfg : get_topdesk_client env = .ok cfg) :
    (list_changes_route env apiU apiP ⟨apiU, apiP⟩ (some f)
      (.response 500 body)).response = ok200 (Json.arr []) := by
  have hv := verify_basic_auth_matching apiU apiP
  have herr : TopDeskClient.list_changes_result (.response 500 body) =
      .error (.httpError 500) := rfl
  simp [list_changes_route, hv, hcfg, herr]

theorem list_changes_masks_upstream_500_witness :
    (list_changes_route (fun _ => none) "u" "p" ⟨"u", "p"⟩ (some "all")
      (.response 500 Json.null)).response = ok200 (Json.arr []) :=
  list_changes_masks_upstream_500 (fun _ => none)
    ⟨"https://cartaoelo.topdesk.net/tas/api", "aaa", "aaa"⟩ "u" "p" "all" Json.null rfl

/-- C4: on a 2xx JSON object response, the asset listing returns exactly
the value of the `dataSet` key and the change listing exactly the value of
the `results` key, each defaulting to the empty array when the key is
absent and discarding the rest of the envelope. -/
theorem envelope_unwrapping (st : Nat) (kvs kvs' : List (String × Json))
    (h2 : 200 ≤ st) (h3 : st < 300) :
    TopDeskClient.get_transaction_assets_result (.response st (.obj kvs)) =
      .ok ((kvs.lookup "dataSet").getD (Json.arr [])) ∧
    TopDeskClient.list_changes_result (.response st (.obj kvs')) =
      .ok ((kvs'.lookup "results").getD (Json.arr [])) := by
  have hok : raise_for_status st = .ok () := by
    rw [raise_for_status, if_neg]
    rintro ⟨h4, -⟩
    omega
  constructor
  · rw [TopDeskClient.get_transaction_assets_result, hok]
    rfl
  · rw [TopDeskClient.list_changes_result, hok]
    rfl

theorem envelope_unwrapping_witness :
    TopDeskClient.get_transaction_assets_result
        (.response 200 (.obj [("dataSet", Json.arr [Json.obj [("id", Json.str "A1")]])])) =
      .ok (Json.arr [Json.obj [("id", Json.str "A1")]]) ∧
    TopDeskClient.list_changes_result (.response 200 (.obj [])) = .ok (Json.arr []) := by
  have h := envelope_unwrapping 200 [("dataSet", Json.arr [Json.obj [("id", Json.str "A1")]])]
    [] (by decide) (by decide)
  exact ⟨h.1, h.2⟩

/-- C7 counterexample: in an environment where `TOPDESK_USER` is unset but
`TOPDESK_API_KEY` is set to the empty string, `get_topdesk_client` does
reach its explicit failure branch and raises, so construction can fail
even though one of the two variables is unset. -/
theorem get_topdesk_client_can_fail_with_var_unset :
    (fun n => if n = "TOPDESK_API_KEY" then some "" else none : Env) "TOPDESK_USER" =
      none ∧
    get_topdesk_client (fun n => if n = "TOPDESK_API_KEY" then some "" else none) =
      .error "TOPDESK_USER or TOPDESK_API_KEY not set in .env file." := by
  constructor
  · rfl
  · rfl

/-- C7 (amended): in every environment where `TOPDESK_USER` and/or
`TOPDESK_API_KEY` are unset and no set variable holds the empty string,
client construction does not fail: each unset variable falls back to the
non-empty placeholder `"aaa"` and a configured client is returned. -/
theorem get_topdesk_client_placeholder_fallback (env : Env)
    ( _hUnset : env "TOPDESK_USER" = none ∨ env "TOPDESK_API_KEY" = none)
    (hU : ∀ s, env "TOPDESK_USER" = some s → s ≠ "")
    (hK : ∀ s, env "TOPDESK_API_KEY" = some s → s ≠ "") :
    ∃ cfg, get_topdesk_client env = .ok cfg ∧
      cfg.username ≠ "" ∧ cfg.password ≠ "" ∧
      (env "TOPDESK_USER" = none → cfg.username = "aaa") ∧
      (env "TOPDESK_API_KEY" = none → cfg.password = "aaa") := by
  have hu : getenv env "TOPDESK_USER" "aaa" ≠ "" := by
    rw [getenv]
    rcases hc : env "TOPDESK_USER" with _ | s
    · decide
    · exact hU s hc
  have hk : getenv env "TOPDESK_API_KEY" "aaa" ≠ "" := by
    rw [getenv]
    rcases hc : env "TOPDESK_API_KEY" with _ | s
    · decide
    · exact hK s hc
  refine ⟨⟨"https://cartaoelo.topdesk.net/tas/api", getenv env "TOPDESK_USER" "aaa",
    getenv env "TOPDESK_API_KEY" "aaa"⟩, ?_, hu, hk, ?_, ?_⟩
  · have hcond : ¬(getenv env "TOPDESK_USER" "aaa" = "" ∨
        getenv env "TOPDESK_API_KEY" "aaa" = "") := by
      rintro (h | h)
      · exact hu h
      · exact hk h
    simp only [get_topdesk_client]
    rw [if_neg hcond]
  · intro hc
    simp [getenv, hc]
  · intro hc
    simp [getenv, hc]

theorem get_topdesk_client_placeholder_fallback_witness :
    ∃ cfg, get_topdesk_client (fun _ => none) = .ok cfg ∧
      cfg.username ≠ "" ∧ cfg.password ≠ "" ∧
      ((fun _ => none : Env) "TOPDESK_USER" = none → cfg.username = "aaa") ∧
      ((fun _ => none : Env) "TOPDESK_API_KEY" = none → cfg.password = "aaa") :=
  get_topdesk_client_placeholder_fallback (fun _ => none) (Or.inl rfl)
    (fun _ h => Option.noConfusion h) (fun _ h => Option.noConfusion h)

/-- C8: on `/v1/changes` and `/v1/changes/{id}`, the `fields` query
parameter is declared without a default and hence required: a request
omitting it makes no client call, and for valid caller credentials it is
rejected by parameter validation with status 422. -/
theorem changes_routes_require_fields (env : Env) (apiU apiP : String)
    (cred : Credentials) (cid : String) (u : Upstream) :
    (list_changes_route env apiU apiP cred none u).call = none ∧
    (get_change_route env apiU apiP cred cid none u).call = none ∧
    (cred = ⟨apiU, apiP⟩ →
      (list_changes_route env apiU apiP cred none u).response = validationErrorResponse ∧
      (get_change_route env apiU apiP cred cid none u).response = validationErrorResponse) := by
  refine ⟨?_, ?_, ?_⟩
  · rw [list_changes_route]
    cases verify_basic_auth apiU apiP cred <;> rfl
  · rw [get_change_route]
    cases verify_basic_auth apiU apiP cred <;> rfl
  · rintro rfl
    have hv := verify_basic_auth_matching apiU apiP
    constructor
    · rw [list_changes_route, hv]
    · rw [get_change_route, hv]

theorem changes_routes_require_fields_witness :
    (list_changes_route (fun _ => none) "u" "p" ⟨"u", "p"⟩ none .transportError).call =
      none ∧
    (list_changes_route (fun _ => none) "u" "p" ⟨"u", "p"⟩ none
      .transportError).response = validationErrorResponse := by
  have h := changes_routes_require_fields (fun _ => none) "u" "p" ⟨"u", "p"⟩ "c1"
    .transportError
  exact ⟨h.1, (h.2.2 rfl).1⟩
